import Mathlib

/-!
Verification of the background scheduler, backoff controller, run store and
chart aggregator of the ads-google repository (src/web_app.py and
src/export_campaigns.py), as a shallow embedding in Lean 4.

Conventions of the embedding:
- Python floats are modelled as rationals; the Python builtin round(x, 2) is
  modelled by round2 below (round to the nearest hundredth).
- Wall-clock time (datetime.now) is modelled as a natural number of seconds;
  timedelta addition becomes addition on these numbers.
- The sqlite database is modelled as the Store structure; one INSERT statement
  is one element appended to the corresponding list, and the commit/rollback
  semantics of the Python `with connection` block is made explicit in
  persist_run below.
- Strings that Python parses with int() are modelled as Option Int inputs
  (the parse outcome), since the claims only depend on the success/failure of
  the parse, not on the grammar of int literals.
-/

/-! ## Backoff controller (src/web_app.py, _apply_backoff, lines 874-885) -/

/-- Python substring test `needle in haystack` on the character lists. -/
def containsSub (hay needle : List Char) : Bool :=
  match hay with
  | [] => needle.isEmpty
  | _ :: t => needle.isPrefixOf hay || containsSub t needle

/-- Python `needle in haystack` for strings. -/
def strContains (hay needle : String) : Bool :=
  containsSub hay.toList needle.toList

/-- Length of the leading run of the character literal d, and the rest. -/
def dRun : List Char → Nat × List Char
  | 'd' :: t => let r := dRun t; (r.1 + 1, r.2)
  | s => (0, s)

/-- One attempted match, at the head of the list, of the raw-string pattern
`Retry in (\\d+) seconds` from line 879 of src/web_app.py.  In a Python raw
string the two backslashes form the regex escape for one literal backslash,
so the group matches a literal backslash followed by one or more letter d
characters, never digits.  Returns the captured group on success. -/
def matchRetryAt (s : List Char) : Option (List Char) :=
  let prefixPat := "Retry in \\".toList
  if prefixPat.isPrefixOf s then
    let rest := s.drop prefixPat.length
    let r := dRun rest
    if r.1 ≥ 1 && " seconds".toList.isPrefixOf r.2 then
      some ('\\' :: List.replicate r.1 'd')
    else
      none
  else
    none

/-- re.search over the message: first position where the pattern matches. -/
def retrySearch : List Char → Option (List Char)
  | [] => none
  | s@(_ :: t) =>
    match matchRetryAt s with
    | some g => some g
    | none => retrySearch t

/-- Python int() applied to a captured group: succeeds only on digit strings
(an optional sign is irrelevant here because the captured group always starts
with a backslash).  Models the ValueError as none. -/
def pyIntDigits (s : List Char) : Option Nat :=
  if s ≠ [] && s.all Char.isDigit then
    some (s.foldl (fun acc c => acc * 10 + (c.toNat - '0'.toNat)) 0)
  else
    none

/-- _apply_backoff (src/web_app.py lines 874-885).  Takes the error message,
the current time in seconds and the current backoff deadline; returns the new
deadline, or an error when the int conversion of the captured group raises
ValueError (which propagates to the caller, leaving the deadline unchanged). -/
def apply_backoff (message : String) (now : Nat) (backoff : Option Nat) :
    Except Unit (Option Nat) :=
  if !(strContains message "Resource has been exhausted") &&
     !(strContains message "429") then
    .ok backoff
  else
    match retrySearch message.toList with
    | some captured =>
      match pyIntDigits captured with
      | some n => .ok (some (now + n))
      | none => .error ()
    | none => .ok (some (now + 3600))

/-! ## Scheduler lifecycle state (src/web_app.py, lines 21-24, 827-871) -/

/-- A threading.Event object: a generation tag distinguishing distinct
allocations, and its set flag. -/
structure SchedEvent where
  gen : Nat
  isSet : Bool
deriving DecidableEq, Repr

/-- The module-level scheduler globals of src/web_app.py: _scheduler_started,
_scheduler_stop_event (the current global binding), _scheduler_backoff_until,
plus an allocation counter supplying fresh generation tags for new Event
objects. -/
structure SchedState where
  started : Bool
  stopEvent : SchedEvent
  backoffUntil : Option Nat
  nextGen : Nat
deriving DecidableEq, Repr

/-- _stop_scheduler (lines 827-834): returns immediately when not started;
otherwise sets the current event, clears the started flag and the backoff
deadline, and rebinds the global stop event to a freshly allocated unset
Event.  The state records the global bindings, so the retired event (set just
before the rebind) no longer appears in it. -/
def stop_scheduler (s : SchedState) : SchedState :=
  if !s.started then s
  else
    { started := false
      stopEvent := { gen := s.nextGen, isSet := false }
      backoffUntil := none
      nextGen := s.nextGen + 1 }

/-- _start_scheduler (lines 862-871): no-op when already started or when the
scheduler is not enabled; otherwise spawns the worker (which reads the current
global stop event) and sets the started flag. -/
def start_scheduler (s : SchedState) (enabled : Bool) : SchedState :=
  if s.started || !enabled then s
  else { s with started := true }

/-- The loop guard of _scheduler_loop (line 845):
`while not _scheduler_stop_event.is_set()`.  True when the worker enters the
loop body rather than halting. -/
def loop_enters_body (e : SchedEvent) : Bool :=
  !e.isSet

/-! ## Metric rows (src/export_campaigns.py) -/

/-- Python round() to the nearest integer, halves to the nearest even
integer, modelled over the rationals (Rat.floor keeps it kernel-computable). -/
def pyRoundHalfEven (q : ℚ) : ℤ :=
  let f := ⌊q⌋
  let frac := q - (f : ℚ)
  if frac < 1/2 then f
  else if 1/2 < frac then f + 1
  else if f % 2 = 0 then f else f + 1

/-- Python round(x, 2) modelled over the rationals. -/
def round2 (q : ℚ) : ℚ :=
  (pyRoundHalfEven (q * 100) : ℚ) / 100

/-- The CampaignRow dataclass (src/export_campaigns.py lines 14-28); floats
are modelled as rationals. -/
structure CampaignRow where
  campaign_id : Int
  campaign_name : String
  status : String
  impressions : Int
  clicks : Int
  ctr_percent : Option ℚ
  search_impression_share : Option ℚ
  average_cpc : Option ℚ
  cost_per_click : Option ℚ
  cost : Option ℚ
  conversions : Option ℚ
  conversion_value : Option ℚ
  cost_per_conversion : Option ℚ
deriving DecidableEq, Repr

/-- _ratio_to_percent (src/export_campaigns.py lines 70-73). -/
def ratio_to_percent (r : Option ℚ) : Option ℚ :=
  r.map (fun v => round2 (v * 100))

/-- _build_total_row (src/export_campaigns.py lines 411-443): the synthetic
aggregate row, named TOTAL, summarising a row list. -/
def build_total_row (rows : List CampaignRow) : CampaignRow :=
  let totalImpressions := (rows.map CampaignRow.impressions).sum
  let totalClicks := (rows.map CampaignRow.clicks).sum
  let totalCost := round2 ((rows.map (fun r => r.cost.getD 0)).sum)
  let totalConversions := round2 ((rows.map (fun r => r.conversions.getD 0)).sum)
  let totalConversionValue :=
    round2 ((rows.map (fun r => r.conversion_value.getD 0)).sum)
  let ctrPercent :=
    if totalImpressions ≠ 0 then
      ratio_to_percent (some ((totalClicks : ℚ) / (totalImpressions : ℚ)))
    else none
  let averageCpc :=
    if totalClicks ≠ 0 then some (round2 (totalCost / (totalClicks : ℚ)))
    else none
  let costPerConversion :=
    if totalConversions ≠ 0 then some (round2 (totalCost / totalConversions))
    else none
  { campaign_id := 0
    campaign_name := "TOTAL"
    status := ""
    impressions := totalImpressions
    clicks := totalClicks
    ctr_percent := ctrPercent
    search_impression_share := none
    average_cpc := averageCpc
    cost_per_click := averageCpc
    cost := some totalCost
    conversions := some totalConversions
    conversion_value := some totalConversionValue
    cost_per_conversion := costPerConversion }

/-- _rows_with_total (src/export_campaigns.py lines 446-447). -/
def rows_with_total (rows : List CampaignRow) : List CampaignRow :=
  rows ++ [build_total_row rows]

/-! ## Run store (src/web_app.py, _persist_run / _count_runs /
_fetch_runs_page, lines 567-631) -/

/-- One row of the runs table. -/
structure RunRec where
  id : Nat
  fetched_at : String
  customer_id : String
  days : Int
deriving DecidableEq, Repr

/-- One row of the campaigns table: the foreign key and the payload. -/
structure StoredRow where
  run_id : Nat
  row : CampaignRow
deriving DecidableEq, Repr

/-- The sqlite database: both tables plus the AUTOINCREMENT counter of the
runs table (the next id to be assigned). -/
structure Store where
  runs : List RunRec
  campaigns : List StoredRow
  nextRunId : Nat
deriving DecidableEq, Repr

/-- The empty database, as created by _init_db. -/
def store0 : Store :=
  { runs := [], campaigns := [], nextRunId := 1 }

/-- The row-insert loop of _persist_run (lines 575-602), executed inside the
open transaction.  The budget models an injected I/O failure: some k means
the INSERT of the k-th campaign row (0-based) raises.  On success, returns
the campaign rows pending commit. -/
def execRowInserts (runId : Nat) (rows : List CampaignRow)
    (budget : Option Nat) : Except Unit (List StoredRow) :=
  match rows with
  | [] => .ok []
  | r :: rs =>
    match budget with
    | some 0 => .error ()
    | _ =>
      (execRowInserts runId rs (budget.map (· - 1))).map
        (fun pending => { run_id := runId, row := r } :: pending)

/-- The committed effect of one _persist_run transaction: the new runs row
(with the next AUTOINCREMENT id) plus the pending campaigns rows. -/
def commitRun (s : Store) (fetched_at customer_id : String) (days : Int)
    (pending : List StoredRow) : Store :=
  { runs := s.runs ++
      [{ id := s.nextRunId, fetched_at := fetched_at,
         customer_id := customer_id, days := days }]
    campaigns := s.campaigns ++ pending
    nextRunId := s.nextRunId + 1 }

/-- Transaction exit (the `with conn` block): commit the pending statements
on success, roll everything back (returning the untouched store) when an
exception escaped the body. -/
def persistResult (s : Store) (fetched_at customer_id : String) (days : Int)
    (res : Except Unit (List StoredRow)) : Store × Option Nat :=
  match res with
  | .error _ => (s, none)
  | .ok pending =>
    (commitRun s fetched_at customer_id days pending, some s.nextRunId)

/-- _persist_run (src/web_app.py lines 567-607).  The whole body runs inside
`with conn`, whose exit handler commits on success and rolls the transaction
back when an exception escapes, so a failure leaves the store exactly as it
was.  failAfter models the injected I/O failure point: some 0 makes the
INSERT into runs raise, some (k+1) makes the INSERT of the k-th campaign row
raise, none runs to completion.  Returns the post-call store and the new run
id (none when the call raised). -/
def persist_run (s : Store) (fetched_at customer_id : String) (days : Int)
    (rows : List CampaignRow) (failAfter : Option Nat) : Store × Option Nat :=
  match failAfter with
  | some 0 => (s, none)
  | some (k + 1) =>
    persistResult s fetched_at customer_id days
      (execRowInserts s.nextRunId rows (some k))
  | none =>
    persistResult s fetched_at customer_id days
      (execRowInserts s.nextRunId rows none)

/-- _count_runs (lines 610-613): SELECT COUNT(*) FROM runs. -/
def count_runs (s : Store) : Nat :=
  s.runs.length

/-- _run_once (lines 837-841), with the external fetch modelled as the
fetchedRows argument: appends the synthetic TOTAL row and persists. -/
def run_once (s : Store) (fetched_at customer_id : String) (days : Int)
    (fetchedRows : List CampaignRow) : Store × Option Nat :=
  persist_run s fetched_at customer_id days (rows_with_total fetchedRows) none

/-- The campaigns rows belonging to one run, in insertion order
(WHERE run_id = ?). -/
def runRowsFor (s : Store) (runId : Nat) : List StoredRow :=
  s.campaigns.filter (fun c => c.run_id == runId)

/-- SUM(CASE WHEN campaigns.campaign_name = TOTAL THEN 0 ELSE 1 END) over the
joined rows of one run. -/
def sumCase (rs : List StoredRow) : Nat :=
  (rs.map (fun c => if c.row.campaign_name = "TOTAL" then 0 else 1)).sum

/-- The campaign_count column of _fetch_runs_page (lines 621-623): the query
LEFT JOINs campaigns onto runs, so a run with no campaign rows contributes a
single joined row whose campaign_name is NULL; the comparison NULL = TOTAL is
not true in SQL, so that row falls into the ELSE branch and is counted as 1. -/
def campaignCount (s : Store) (runId : Nat) : Nat :=
  let rs := runRowsFor s runId
  if rs.isEmpty then 1 else sumCase rs

/-- Insertion into a list kept sorted by id descending (ORDER BY id DESC). -/
def insertRunDesc (r : RunRec) : List RunRec → List RunRec
  | [] => [r]
  | x :: xs => if x.id ≤ r.id then r :: x :: xs else x :: insertRunDesc r xs

/-- The runs table ordered by id descending. -/
def sortRunsDesc (l : List RunRec) : List RunRec :=
  l.foldr insertRunDesc []

/-- _fetch_runs_page (src/web_app.py lines 616-631): page of run summaries,
ordered by id descending with LIMIT pageSize OFFSET (page-1)*pageSize, each
carrying its campaign_count aggregate. -/
def fetch_runs_page (s : Store) (page pageSize : Nat) :
    List (RunRec × Nat) :=
  (((sortRunsDesc s.runs).drop ((page - 1) * pageSize)).take pageSize).map
    (fun r => (r, campaignCount s r.id))

/-! ## History page clamping (src/web_app.py, history route, lines 997-1014) -/

/-- The page/page_size/total_pages computation of the history route.  The raw
query strings are modelled by the outcome of the int() parse: none when int()
raised ValueError (non-integer string), some v otherwise.  Mirrors lines
1001-1014: page defaults to 1 and is floored at 1; page_size defaults to 100
and is clamped into [20, 500]; total_pages is the ceiling of
count_runs / page_size, floored at 1; a page beyond total_pages is pulled
down to total_pages. -/
def page0_of (pageRaw : Option Int) : Int :=
  match pageRaw with
  | some v => max v 1
  | none => 1

def pageSize_of (pageSizeRaw : Option Int) : Int :=
  min (max (match pageSizeRaw with | some v => v | none => 100) 20) 500

def totalPages_of (s : Store) (pageSize : Int) : Int :=
  max (((count_runs s : Int) + pageSize - 1) / pageSize) 1

def history_page_clamp (pageRaw pageSizeRaw : Option Int) (s : Store) :
    Int × Int × Int :=
  let pageSize := pageSize_of pageSizeRaw
  let totalPages := totalPages_of s pageSize
  let page :=
    if page0_of pageRaw > totalPages then totalPages else page0_of pageRaw
  (page, pageSize, totalPages)

/-! ## Chart aggregator (src/web_app.py, _build_line_series, lines 741-787) -/

/-- One chart dot (x, y, label, count). -/
structure ChartDot where
  x : ℚ
  y : ℚ
  label : String
  count : Nat
deriving DecidableEq, Repr

/-- The series dictionary returned by _build_line_series; the points string
is modelled as the list of coordinate pairs it renders. -/
structure LineSeries where
  points : List (ℚ × ℚ)
  dots : List ChartDot
  width : Nat
  height : Nat
  startLabel : Option String
  endLabel : Option String
  maxValue : Nat
deriving DecidableEq, Repr

/-- The unrounded x position of the dot at a given index (line 767):
padding + spanX * idx / denom. -/
def xIdeal (padding spanX denom idx : Nat) : ℚ :=
  (padding : ℚ) + (spanX : ℚ) * (idx : ℚ) / (denom : ℚ)

/-- The unrounded y position for a count (line 768):
padding + spanY * (1 - count / maxCount). -/
def yIdeal (padding spanY maxCount cnt : Nat) : ℚ :=
  (padding : ℚ) + (spanY : ℚ) * (1 - (cnt : ℚ) / (maxCount : ℚ))

/-- The dot built for one enumerated bucket (lines 766-776): both
coordinates are rounded to two decimals. -/
def mkDot (padding spanX spanY maxCount denom : Nat)
    (q : Nat × String × Nat) : ChartDot :=
  { x := round2 (xIdeal padding spanX denom q.1)
    y := round2 (yIdeal padding spanY maxCount q.2.2)
    label := q.2.1
    count := q.2.2 }

/-- _build_line_series (src/web_app.py lines 741-787).  A bucket row is a
(label, count) pair; counts come from COUNT(*) aggregates.  Python max(..)
with the `or 1` fallback, the spans floored at 1, the n-1 denominator (1 for
a single row) and the 2-decimal rounding are all reproduced. -/
def build_line_series (rows : List (String × Nat))
    (width height padding : Nat) : LineSeries :=
  if rows.isEmpty then
    { points := [], dots := [], width := width, height := height,
      startLabel := none, endLabel := none, maxValue := 0 }
  else
    let m := (rows.map Prod.snd).foldl max 0
    let maxCount := if m = 0 then 1 else m
    let count := rows.length
    let spanX := max (width - padding * 2) 1
    let spanY := max (height - padding * 2) 1
    let denom := if count > 1 then count - 1 else 1
    let dots := rows.enum.map (mkDot padding spanX spanY maxCount denom)
    { points := dots.map (fun d => (d.x, d.y))
      dots := dots
      width := width
      height := height
      startLabel := (rows.head?).map Prod.fst
      endLabel := (rows.getLast?).map Prod.fst
      maxValue := maxCount }

/-! ## Concurrent RunOnce invocations (src/web_app.py, _run_once at lines
837-841, called by the scheduler worker at line 855 and by the control route
at line 985, from different threads)

_run_once performs an external fetch and then the persist; the source
acquires no lock anywhere around either call, so in the interleaving
semantics each of the two threads may take its next step at any time.  A
thread is in flight after its fetch has started and before its persist has
committed. -/

/-- Program counter of one _run_once invocation: before the fetch, after the
fetch but before the persist commits, and after the commit. -/
inductive RunPc where
  | idle
  | fetched
  | done
deriving DecidableEq, Repr

/-- A _run_once invocation is in flight between its fetch and its commit. -/
def inFlight : RunPc → Bool
  | .fetched => true
  | _ => false

/-- Shared state of two concurrent _run_once invocations: both program
counters and the database. -/
structure ConcState where
  pc1 : RunPc
  pc2 : RunPc
  store : Store
deriving DecidableEq, Repr

/-- Interleaving small-step semantics of two concurrent _run_once calls with
fixed parameters (fetch results r1 and r2).  No step carries a guard on the
other thread, because the source takes no lock: each thread may fetch or
persist regardless of where the other one stands. -/
inductive RunOnceStep (fetched_at customer_id : String) (days : Int)
    (r1 r2 : List CampaignRow) : ConcState → ConcState → Prop where
  | fetch1 (pc2 : RunPc) (st : Store) :
      RunOnceStep fetched_at customer_id days r1 r2
        ⟨.idle, pc2, st⟩ ⟨.fetched, pc2, st⟩
  | persist1 (pc2 : RunPc) (st : Store) :
      RunOnceStep fetched_at customer_id days r1 r2
        ⟨.fetched, pc2, st⟩
        ⟨.done, pc2, (run_once st fetched_at customer_id days r1).1⟩
  | fetch2 (pc1 : RunPc) (st : Store) :
      RunOnceStep fetched_at customer_id days r1 r2
        ⟨pc1, .idle, st⟩ ⟨pc1, .fetched, st⟩
  | persist2 (pc1 : RunPc) (st : Store) :
      RunOnceStep fetched_at customer_id days r1 r2
        ⟨pc1, .fetched, st⟩
        ⟨pc1, .done, (run_once st fetched_at customer_id days r2).1⟩

/-- One InsertRun call: the run metadata, the rows, and the injected failure
point (none = the underlying I/O succeeds throughout). -/
structure InsOp where
  fetched_at : String
  customer_id : String
  days : Int
  rows : List CampaignRow
  failAfter : Option Nat
deriving DecidableEq, Repr

/-- A sequence of InsertRun calls against the store, returning the final
store and the number of successful inserts.  A failed call contributes
nothing: the rolled-back store is passed on unchanged and the success count
does not move. -/
def runAll (s : Store) : List InsOp → Store × Nat
  | [] => (s, 0)
  | op :: ops =>
    match persist_run s op.fetched_at op.customer_id op.days op.rows
        op.failAfter with
    | (s', some _) =>
      let r := runAll s' ops
      (r.1, r.2 + 1)
    | (s', none) => runAll s' ops

/-! ## Helper lemmas -/

lemma pyRoundHalfEven_intCast (n : ℤ) : pyRoundHalfEven (n : ℚ) = n := by
  simp [pyRoundHalfEven]

lemma round2_intCast (n : ℤ) : round2 (n : ℚ) = n := by
  unfold round2
  have h : ((n : ℚ) * 100) = ((n * 100 : ℤ) : ℚ) := by push_cast; ring
  rw [h, pyRoundHalfEven_intCast]
  push_cast
  rw [mul_div_assoc]
  norm_num

lemma round2_natCast (n : ℕ) : round2 (n : ℚ) = n := by
  have := round2_intCast (n : ℤ)
  push_cast at this ⊢
  exact this

lemma round2_hundredth (q : ℚ) (n : ℤ) (h : q * 100 = (n : ℚ)) :
    round2 q = q := by
  unfold round2
  rw [h, pyRoundHalfEven_intCast, ← h, mul_div_assoc]
  norm_num

lemma execRowInserts_none (runId : Nat) (rows : List CampaignRow) :
    execRowInserts runId rows none =
      .ok (rows.map fun r => { run_id := runId, row := r }) := by
  induction rows with
  | nil => rfl
  | cons r rs ih => simp [execRowInserts, ih, Except.map]

lemma execRowInserts_fail (runId : Nat) (rows : List CampaignRow) (m : Nat)
    (h : m < rows.length) :
    execRowInserts runId rows (some m) = .error () := by
  induction rows generalizing m with
  | nil => simp at h
  | cons r rs ih =>
    cases m with
    | zero => rfl
    | succ k =>
      have hk : k < rs.length := by simpa using h
      simp [execRowInserts, ih k hk, Except.map]

lemma persist_run_none_eq (s : Store) (fa cid : String) (days : Int)
    (rows : List CampaignRow) :
    persist_run s fa cid days rows none =
      (commitRun s fa cid days (rows.map fun r => { run_id := s.nextRunId, row := r }),
       some s.nextRunId) := by
  simp [persist_run, execRowInserts_none, persistResult]

lemma persist_run_success (s : Store) (fa cid : String) (days : Int)
    (rows : List CampaignRow) (s' : Store) (k : Nat) (f : Option Nat)
    (h : persist_run s fa cid days rows f = (s', some k)) :
    count_runs s' = count_runs s + 1 := by
  cases f with
  | none =>
    rw [persist_run_none_eq] at h
    have h1 := congrArg Prod.fst h
    simp only at h1
    rw [← h1]
    simp [commitRun, count_runs]
  | some n =>
    cases n with
    | zero => simp [persist_run] at h
    | succ m =>
      have hdef : persist_run s fa cid days rows (some (m + 1)) =
          persistResult s fa cid days
            (execRowInserts s.nextRunId rows (some m)) := rfl
      rw [hdef] at h
      cases hE : execRowInserts s.nextRunId rows (some m) with
      | error e => rw [hE] at h; simp [persistResult] at h
      | ok pending =>
        rw [hE] at h
        simp only [persistResult] at h
        have h1 := congrArg Prod.fst h
        simp only at h1
        rw [← h1]
        simp [commitRun, count_runs]

lemma persist_run_failure (s : Store) (fa cid : String) (days : Int)
    (rows : List CampaignRow) (s' : Store) (f : Option Nat)
    (h : persist_run s fa cid days rows f = (s', none)) : s' = s := by
  cases f with
  | none =>
    rw [persist_run_none_eq] at h
    exact absurd (congrArg Prod.snd h) (by simp)
  | some n =>
    cases n with
    | zero =>
      have := congrArg Prod.fst h
      simpa [persist_run] using this.symm
    | succ m =>
      have hdef : persist_run s fa cid days rows (some (m + 1)) =
          persistResult s fa cid days
            (execRowInserts s.nextRunId rows (some m)) := rfl
      rw [hdef] at h
      cases hE : execRowInserts s.nextRunId rows (some m) with
      | error e =>
        rw [hE] at h
        have := congrArg Prod.fst h
        simpa [persistResult] using this.symm
      | ok pending =>
        rw [hE] at h
        exact absurd (congrArg Prod.snd h) (by simp [persistResult])

/-! ## Claim C2 -/

/-- Claim C2: a rate-limited error message embedding the duration
`Retry in 120 seconds` is claimed to set the backoff deadline to
now + 120 seconds.  The code disagrees: the pattern on line 879 of
src/web_app.py is the raw string `Retry in (\\d+) seconds`, whose group
matches a literal backslash followed by letter d characters and therefore
never matches digits, so the embedded duration is ignored and the default
3600-second backoff is applied instead.  This theorem evaluates the embedded
_apply_backoff at the failing input. -/
theorem claim2_retry_duration_not_parsed :
    retrySearch
      ("Resource has been exhausted. Retry in 120 seconds").toList = none ∧
    apply_backoff "Resource has been exhausted. Retry in 120 seconds" 0 none
      = .ok (some 3600) ∧
    (3600 : ℕ) ≠ 120 :=
  ⟨rfl, rfl, by decide⟩

/-! ## Claim C8 -/

/-- Claim C8 counterexample: the message `429 Retry in \dd seconds` contains
the 429 marker and embeds no parseable retry duration, yet _apply_backoff
does not set the 3600-second default: the buggy pattern matches the literal
backslash-dd text, int() then raises ValueError on the captured group, and
the exception escapes with the deadline unchanged. -/
theorem claim8_counterexample :
    strContains "429 Retry in \\dd seconds" "429" = true ∧
    retrySearch ("429 Retry in \\dd seconds").toList = some ['\\', 'd', 'd'] ∧
    apply_backoff "429 Retry in \\dd seconds" 0 none = .error () :=
  ⟨rfl, rfl, rfl⟩

/-- Claim C8 (amended): for every message containing a rate-limit marker on
which the line-879 pattern finds no match (in particular every message free
of the literal text backslash-d), the deadline becomes now + 3600; a message
containing neither marker leaves the deadline unchanged. -/
theorem claim8_default_and_frame (message : String) (now : ℕ)
    (b : Option ℕ) :
    (strContains message "Resource has been exhausted" = false →
      strContains message "429" = false →
      apply_backoff message now b = .ok b) ∧
    ((strContains message "Resource has been exhausted" = true ∨
      strContains message "429" = true) →
      retrySearch message.toList = none →
      apply_backoff message now b = .ok (some (now + 3600))) := by
  constructor
  · intro h1 h2
    simp [apply_backoff, h1, h2]
  · intro h1 h2
    unfold apply_backoff
    have h2' : retrySearch message.data = none := h2
    rcases h1 with h | h <;> simp [h, h2']

/-- Witness for claim C8: both branches of the theorem at concrete inputs. -/
theorem claim8_witness :
    apply_backoff "429" 7 none = .ok (some (7 + 3600)) ∧
    apply_backoff "all clear" 7 (some 3) = .ok (some 3) :=
  ⟨(claim8_default_and_frame "429" 7 none).2 (Or.inr rfl) rfl,
   (claim8_default_and_frame "all clear" 7 (some 3)).1 rfl rfl⟩

/-! ## Claim C10 -/

/-- Claim C10: _stop_scheduler on a non-started scheduler is a no-op leaving
every piece of scheduler state exactly as it was; on a started scheduler it
additionally clears the backoff deadline to none. -/
theorem claim10_stop_frame (s : SchedState) :
    (s.started = false → stop_scheduler s = s) ∧
    (s.started = true → (stop_scheduler s).backoffUntil = none) := by
  constructor <;> intro h <;> simp [stop_scheduler, h]

/-- Witness for claim C10: both branches at concrete scheduler states. -/
theorem claim10_witness :
    stop_scheduler
      { started := false, stopEvent := { gen := 3, isSet := true },
        backoffUntil := some 9, nextGen := 4 } =
      { started := false, stopEvent := { gen := 3, isSet := true },
        backoffUntil := some 9, nextGen := 4 } ∧
    (stop_scheduler
      { started := true, stopEvent := { gen := 0, isSet := false },
        backoffUntil := some 9, nextGen := 1 }).backoffUntil = none :=
  ⟨(claim10_stop_frame _).1 rfl, (claim10_stop_frame _).2 rfl⟩

/-! ## Claim C5 -/

/-- Claim C5: stopping a started scheduler rebinds the stop signal to a
fresh unset event (distinct from the previous one, by the allocation
invariant on generation tags), so a subsequent start spawns a worker whose
loop guard passes and the worker is not halted by the stale signal. -/
theorem claim5_fresh_stop_signal (s : SchedState)
    (hstart : s.started = true) (hgen : s.stopEvent.gen < s.nextGen) :
    (stop_scheduler s).stopEvent.isSet = false ∧
    (stop_scheduler s).stopEvent ≠ s.stopEvent ∧
    (stop_scheduler s).started = false ∧
    (start_scheduler (stop_scheduler s) true).started = true ∧
    (start_scheduler (stop_scheduler s) true).stopEvent =
      (stop_scheduler s).stopEvent ∧
    loop_enters_body
      (start_scheduler (stop_scheduler s) true).stopEvent = true := by
  refine ⟨by simp [stop_scheduler, hstart], ?_,
    by simp [stop_scheduler, hstart],
    by simp [stop_scheduler, start_scheduler, hstart],
    by simp [stop_scheduler, start_scheduler, hstart],
    by simp [stop_scheduler, start_scheduler, loop_enters_body, hstart]⟩
  simp only [stop_scheduler, hstart]
  intro hEq
  have : s.nextGen = s.stopEvent.gen := by
    simpa using congrArg SchedEvent.gen hEq
  omega

/-- Witness for claim C5 at a concrete started scheduler whose previous stop
event is stale (already set). -/
theorem claim5_witness :
    (stop_scheduler
      { started := true, stopEvent := { gen := 0, isSet := true },
        backoffUntil := some 5, nextGen := 1 }).stopEvent.isSet = false ∧
    (stop_scheduler
      { started := true, stopEvent := { gen := 0, isSet := true },
        backoffUntil := some 5, nextGen := 1 }).stopEvent ≠
      ({ gen := 0, isSet := true } : SchedEvent) ∧
    (stop_scheduler
      { started := true, stopEvent := { gen := 0, isSet := true },
        backoffUntil := some 5, nextGen := 1 }).started = false ∧
    (start_scheduler (stop_scheduler
      { started := true, stopEvent := { gen := 0, isSet := true },
        backoffUntil := some 5, nextGen := 1 }) true).started = true ∧
    (start_scheduler (stop_scheduler
      { started := true, stopEvent := { gen := 0, isSet := true },
        backoffUntil := some 5, nextGen := 1 }) true).stopEvent =
      (stop_scheduler
      { started := true, stopEvent := { gen := 0, isSet := true },
        backoffUntil := some 5, nextGen := 1 }).stopEvent ∧
    loop_enters_body (start_scheduler (stop_scheduler
      { started := true, stopEvent := { gen := 0, isSet := true },
        backoffUntil := some 5, nextGen := 1 }) true).stopEvent = true :=
  claim5_fresh_stop_signal
    { started := true, stopEvent := { gen := 0, isSet := true },
      backoffUntil := some 5, nextGen := 1 } rfl (by decide)

/-! ## Claim C4 -/

/-- Claim C4: InsertRun is all-or-nothing.  Over every sequence of InsertRun
calls, CountRuns of the final store equals its initial value plus the number
of successful inserts; and every call whose injected I/O failure point lies
within the transaction (the runs INSERT or any campaigns INSERT) returns the
store completely unchanged: no Run row, no MetricRows, CountRuns untouched. -/
theorem claim4_insert_run_atomic :
    (∀ (s : Store) (ops : List InsOp),
      count_runs (runAll s ops).1 = count_runs s + (runAll s ops).2) ∧
    (∀ (s : Store) (fa cid : String) (days : Int) (rows : List CampaignRow)
      (n : Nat), n ≤ rows.length →
      persist_run s fa cid days rows (some n) = (s, none)) := by
  constructor
  · intro s ops
    induction ops generalizing s with
    | nil => simp [runAll]
    | cons op ops ih =>
      unfold runAll
      cases hp : persist_run s op.fetched_at op.customer_id op.days op.rows
          op.failAfter with
      | mk s' r =>
        cases r with
        | some k =>
          have hc := persist_run_success s op.fetched_at op.customer_id
            op.days op.rows s' k op.failAfter hp
          simp only [ih s', hc]
          omega
        | none =>
          have hs := persist_run_failure s op.fetched_at op.customer_id
            op.days op.rows s' op.failAfter hp
          simp only [hs]
          exact ih s
  · intro s fa cid days rows n h
    cases n with
    | zero => rfl
    | succ k =>
      have hk : k < rows.length := h
      have hdef : persist_run s fa cid days rows (some (k + 1)) =
          persistResult s fa cid days
            (execRowInserts s.nextRunId rows (some k)) := rfl
      rw [hdef, execRowInserts_fail s.nextRunId rows k hk]
      rfl

/-- Witness for claim C4: a failed insert followed by a successful one on the
empty store, and a one-row insert failing at the campaign-row INSERT. -/
theorem claim4_witness :
    count_runs (runAll store0
      [{ fetched_at := "t1", customer_id := "c", days := 30, rows := [],
         failAfter := some 0 },
       { fetched_at := "t2", customer_id := "c", days := 30, rows := [],
         failAfter := none }]).1 =
      count_runs store0 +
      (runAll store0
        [{ fetched_at := "t1", customer_id := "c", days := 30, rows := [],
           failAfter := some 0 },
         { fetched_at := "t2", customer_id := "c", days := 30, rows := [],
           failAfter := none }]).2 ∧
    persist_run store0 "t1" "c" 30
      [{ campaign_id := 1, campaign_name := "camp", status := "ENABLED",
         impressions := 10, clicks := 2, ctr_percent := none,
         search_impression_share := none, average_cpc := none,
         cost_per_click := none, cost := none, conversions := none,
         conversion_value := none, cost_per_conversion := none }]
      (some 1) = (store0, none) :=
  ⟨claim4_insert_run_atomic.1 store0 _,
   claim4_insert_run_atomic.2 store0 "t1" "c" 30 _ 1 (by decide)⟩

/-! ## Claim C9 -/

/-- Claim C9: _rows_with_total always appends exactly one synthetic row, as
the last element, whose name field is TOTAL — also on an empty fetch — so a
run persisted through _run_once from an empty fetch stores exactly one
campaigns row (the TOTAL row) and its reported item count is 0.  The
hypothesis is the store invariant that existing campaigns rows reference
already-assigned run ids. -/
theorem claim9_total_row (rows : List CampaignRow) (s : Store)
    (fa cid : String) (days : Int)
    (hwf : ∀ c ∈ s.campaigns, c.run_id < s.nextRunId) :
    (rows_with_total rows).getLast? = some (build_total_row rows) ∧
    (build_total_row rows).campaign_name = "TOTAL" ∧
    (rows_with_total rows).length = rows.length + 1 ∧
    (rows_with_total rows).dropLast = rows ∧
    (runRowsFor (run_once s fa cid days []).1 s.nextRunId).length = 1 ∧
    campaignCount (run_once s fa cid days []).1 s.nextRunId = 0 := by
  have hname : (build_total_row rows).campaign_name = "TOTAL" := rfl
  have hold : s.campaigns.filter (fun c => c.run_id == s.nextRunId) = [] := by
    rw [List.filter_eq_nil_iff]
    intro c hc
    simp only [beq_iff_eq]
    exact Nat.ne_of_lt (hwf c hc)
  have hrun : (run_once s fa cid days []).1.campaigns =
      s.campaigns ++ [{ run_id := s.nextRunId, row := build_total_row [] }] := by
    unfold run_once
    rw [persist_run_none_eq]
    simp [commitRun, rows_with_total]
  have hrows : runRowsFor (run_once s fa cid days []).1 s.nextRunId =
      [{ run_id := s.nextRunId, row := build_total_row [] }] := by
    unfold runRowsFor
    rw [hrun, List.filter_append, hold]
    simp
  refine ⟨by simp [rows_with_total], hname, by simp [rows_with_total],
    by simp [rows_with_total], by rw [hrows]; rfl, ?_⟩
  have hname0 : (build_total_row []).campaign_name = "TOTAL" := rfl
  unfold campaignCount
  rw [hrows]
  simp [sumCase, hname0]

/-- Witness for claim C9: the empty fetch against the empty store. -/
theorem claim9_witness :
    (rows_with_total []).getLast? = some (build_total_row []) ∧
    (build_total_row []).campaign_name = "TOTAL" ∧
    (rows_with_total []).length = ([] : List CampaignRow).length + 1 ∧
    (rows_with_total []).dropLast = ([] : List CampaignRow) ∧
    (runRowsFor (run_once store0 "t" "c" 30 []).1 store0.nextRunId).length = 1 ∧
    campaignCount (run_once store0 "t" "c" 30 []).1 store0.nextRunId = 0 :=
  claim9_total_row [] store0 "t" "c" 30 (by simp [store0])

/-! ## Claim C3 -/

/-- The SUM of the CASE expression equals the number of non-TOTAL rows, for a
nonempty row group. -/
lemma sumCase_eq_filter_length (rs : List StoredRow) :
    sumCase rs =
      (rs.filter (fun x => !(x.row.campaign_name == "TOTAL"))).length := by
  induction rs with
  | nil => rfl
  | cons c t ih =>
    simp only [sumCase, List.map_cons, List.sum_cons] at ih ⊢
    rw [List.filter_cons]
    by_cases h : c.row.campaign_name = "TOTAL"
    · have hb : (!(c.row.campaign_name == "TOTAL")) = false := by simp [h]
      rw [hb, if_pos h]
      simpa using ih
    · have hb : (!(c.row.campaign_name == "TOTAL")) = true := by simp [h]
      rw [hb, if_neg h]
      simp only [if_true, eq_self_iff_true, List.length_cons]
      omega

/-- Claim C3 (amended): for every run summary returned by _fetch_runs_page,
the reported campaign_count equals the number of that run's stored rows whose
name is not TOTAL whenever the run has at least one stored row; a run with
zero stored rows reports campaign_count 1, not 0, because the LEFT JOIN emits
one all-NULL row for it and NULL = 'TOTAL' is not true, so the CASE falls
into the ELSE 1 branch. -/
theorem claim3_item_count (s : Store) (page pageSize : Nat) (r : RunRec)
    (c : Nat) (hmem : (r, c) ∈ fetch_runs_page s page pageSize) :
    (runRowsFor s r.id ≠ [] →
      c = ((runRowsFor s r.id).filter
            (fun x => !(x.row.campaign_name == "TOTAL"))).length) ∧
    (runRowsFor s r.id = [] → c = 1) := by
  have hc : c = campaignCount s r.id := by
    unfold fetch_runs_page at hmem
    obtain ⟨a, ha, heq⟩ := List.mem_map.mp hmem
    simp only [Prod.mk.injEq] at heq
    obtain ⟨h1, h2⟩ := heq
    rw [← h2, h1]
  constructor
  · intro hne
    rw [hc]
    unfold campaignCount
    rw [if_neg (by simpa [List.isEmpty_iff] using hne)]
    exact sumCase_eq_filter_length _
  · intro he
    rw [hc]
    unfold campaignCount
    rw [if_pos (by simpa [List.isEmpty_iff] using he)]

/-- Claim C3 counterexample: a store holding one run with zero stored rows;
_fetch_runs_page reports item count 1 for it, where the claim says 0. -/
theorem claim3_counterexample :
    fetch_runs_page
      { runs := [{ id := 1, fetched_at := "2024-01-01 00:00:00",
                   customer_id := "c", days := 30 }],
        campaigns := [], nextRunId := 2 } 1 100 =
      [({ id := 1, fetched_at := "2024-01-01 00:00:00",
          customer_id := "c", days := 30 }, 1)] ∧ (1 : Nat) ≠ 0 :=
  ⟨by decide, by decide⟩

/-- Witness for claim C3 at a store whose single run has one non-TOTAL row
and one TOTAL row: the reported count is 1. -/
theorem claim3_witness :
    runRowsFor
      { runs := [{ id := 1, fetched_at := "2024-01-01 00:00:00",
                   customer_id := "c", days := 30 }],
        campaigns :=
          [{ run_id := 1,
             row := { campaign_id := 7, campaign_name := "A",
                      status := "ENABLED", impressions := 0, clicks := 0,
                      ctr_percent := none, search_impression_share := none,
                      average_cpc := none, cost_per_click := none,
                      cost := none, conversions := none,
                      conversion_value := none,
                      cost_per_conversion := none } },
           { run_id := 1,
             row := { campaign_id := 0, campaign_name := "TOTAL",
                      status := "", impressions := 0, clicks := 0,
                      ctr_percent := none, search_impression_share := none,
                      average_cpc := none, cost_per_click := none,
                      cost := none, conversions := none,
                      conversion_value := none,
                      cost_per_conversion := none } }],
        nextRunId := 2 } 1 ≠ [] ∧
    (1 : Nat) =
      ((runRowsFor
        { runs := [{ id := 1, fetched_at := "2024-01-01 00:00:00",
                     customer_id := "c", days := 30 }],
          campaigns :=
            [{ run_id := 1,
               row := { campaign_id := 7, campaign_name := "A",
                        status := "ENABLED", impressions := 0, clicks := 0,
                        ctr_percent := none, search_impression_share := none,
                        average_cpc := none, cost_per_click := none,
                        cost := none, conversions := none,
                        conversion_value := none,
                        cost_per_conversion := none } },
             { run_id := 1,
               row := { campaign_id := 0, campaign_name := "TOTAL",
                        status := "", impressions := 0, clicks := 0,
                        ctr_percent := none, search_impression_share := none,
                        average_cpc := none, cost_per_click := none,
                        cost := none, conversions := none,
                        conversion_value := none,
                        cost_per_conversion := none } }],
          nextRunId := 2 } 1).filter
        (fun x => !(x.row.campaign_name == "TOTAL"))).length :=
  ⟨by decide,
   (claim3_item_count _ 1 100
      { id := 1, fetched_at := "2024-01-01 00:00:00",
        customer_id := "c", days := 30 } 1 (by decide)).1 (by decide)⟩

/-! ## Claim C6 -/

/-- Claim C6: for every page and page_size input (including non-integer
strings, modelled as failed parses), the effective page_size lies in
[20, 500], the effective page is at least 1, never exceeds the total page
count computed from CountRuns, and equals the floored-at-1 requested page
clamped down to the last valid page. -/
theorem claim6_history_clamping (pageRaw pageSizeRaw : Option Int)
    (s : Store) :
    20 ≤ (history_page_clamp pageRaw pageSizeRaw s).2.1 ∧
    (history_page_clamp pageRaw pageSizeRaw s).2.1 ≤ 500 ∧
    1 ≤ (history_page_clamp pageRaw pageSizeRaw s).1 ∧
    (history_page_clamp pageRaw pageSizeRaw s).1 ≤
      (history_page_clamp pageRaw pageSizeRaw s).2.2 ∧
    (history_page_clamp pageRaw pageSizeRaw s).1 =
      min (max (pageRaw.getD 1) 1)
        (history_page_clamp pageRaw pageSizeRaw s).2.2 := by
  have hps : (history_page_clamp pageRaw pageSizeRaw s).2.1 =
      pageSize_of pageSizeRaw := rfl
  have htp : (history_page_clamp pageRaw pageSizeRaw s).2.2 =
      totalPages_of s (pageSize_of pageSizeRaw) := rfl
  have hpage : (history_page_clamp pageRaw pageSizeRaw s).1 =
      if page0_of pageRaw > totalPages_of s (pageSize_of pageSizeRaw) then
        totalPages_of s (pageSize_of pageSizeRaw)
      else page0_of pageRaw := rfl
  have h20 : 20 ≤ pageSize_of pageSizeRaw := by
    unfold pageSize_of
    exact le_min (le_max_right _ _) (by norm_num)
  have h500 : pageSize_of pageSizeRaw ≤ 500 := min_le_right _ _
  have htp1 : 1 ≤ totalPages_of s (pageSize_of pageSizeRaw) :=
    le_max_right _ _
  have hp01 : 1 ≤ page0_of pageRaw := by
    cases pageRaw with
    | none => exact le_refl 1
    | some v => exact le_max_right v 1
  have hp0 : page0_of pageRaw = max (pageRaw.getD 1) 1 := by
    cases pageRaw with
    | none => simp [page0_of]
    | some v => rfl
  have hmin : (history_page_clamp pageRaw pageSizeRaw s).1 =
      min (page0_of pageRaw) (totalPages_of s (pageSize_of pageSizeRaw)) := by
    rw [hpage]
    by_cases h : page0_of pageRaw >
        totalPages_of s (pageSize_of pageSizeRaw)
    · rw [if_pos h, min_eq_right (le_of_lt h)]
    · rw [if_neg h, min_eq_left (le_of_not_lt h)]
  refine ⟨hps ▸ h20, hps ▸ h500, ?_, ?_, ?_⟩
  · rw [hmin]
    exact le_min hp01 htp1
  · rw [hmin, htp]
    exact min_le_right _ _
  · rw [hmin, htp, hp0]

/-! ## Claim C1 -/

/-- A committed _run_once adds exactly one runs row. -/
lemma count_runs_run_once (s : Store) (fa cid : String) (days : Int)
    (rows : List CampaignRow) :
    count_runs (run_once s fa cid days rows).1 = count_runs s + 1 := by
  unfold run_once
  rw [persist_run_none_eq]
  simp [commitRun, count_runs]

/-- Claim C1 counterexample: from two pending _run_once invocations (the
background loop and a manual trigger) on the empty store, the interleaving in
which both threads complete their fetches before either persists is reachable,
so a state with two RunOnce sequences simultaneously in flight exists — the
code performs no serialization, so the claimed mutual exclusion fails. -/
theorem claim1_counterexample :
    Relation.ReflTransGen (RunOnceStep "t" "c" 30 [] [])
      ⟨.idle, .idle, store0⟩ ⟨.fetched, .fetched, store0⟩ ∧
    inFlight .fetched = true :=
  ⟨Relation.ReflTransGen.head (RunOnceStep.fetch1 .idle store0)
      (Relation.ReflTransGen.single (RunOnceStep.fetch2 .fetched store0)),
   rfl⟩

/-- Claim C1 (amended): the code provides no single-flight guarantee — for
every starting store and every pair of concurrent _run_once invocations, the
state in which both are in flight at once is reachable, and from it both can
run to completion, each committing its own run, leaving two new Runs in the
store.  Serialization exists only per individual INSERT transaction, not per
fetch-and-persist sequence. -/
theorem claim1_no_single_flight (fa cid : String) (days : Int)
    (r1 r2 : List CampaignRow) (s : Store) :
    Relation.ReflTransGen (RunOnceStep fa cid days r1 r2)
      ⟨.idle, .idle, s⟩ ⟨.fetched, .fetched, s⟩ ∧
    ∃ s' : Store,
      Relation.ReflTransGen (RunOnceStep fa cid days r1 r2)
        ⟨.fetched, .fetched, s⟩ ⟨.done, .done, s'⟩ ∧
      count_runs s' = count_runs s + 2 := by
  constructor
  · exact Relation.ReflTransGen.head (RunOnceStep.fetch1 .idle s)
      (Relation.ReflTransGen.single (RunOnceStep.fetch2 .fetched s))
  · refine ⟨(run_once (run_once s fa cid days r1).1 fa cid days r2).1,
      Relation.ReflTransGen.head (RunOnceStep.persist1 .fetched s)
        (Relation.ReflTransGen.single
          (RunOnceStep.persist2 .done (run_once s fa cid days r1).1)), ?_⟩
    rw [count_runs_run_once, count_runs_run_once]

/-! ## Claim C7 -/

/-- Evaluation of round2 at an exact integer value. -/
lemma round2_eval (a : ℚ) (n : ℤ) (ha : a = (n : ℚ)) :
    round2 a = (n : ℚ) := by
  rw [ha, round2_intCast]

/-- The dot list of a nonempty series, with the scaling parameters of the
source spelled out. -/
lemma build_dots_eq (rows : List (String × Nat)) (w h p : Nat)
    (hne : rows ≠ []) :
    (build_line_series rows w h p).dots =
      rows.enum.map (mkDot p (max (w - p * 2) 1) (max (h - p * 2) 1)
        (if (rows.map Prod.snd).foldl max 0 = 0 then 1
         else (rows.map Prod.snd).foldl max 0)
        (if rows.length > 1 then rows.length - 1 else 1)) := by
  have hne' : rows.isEmpty = false := by simp [List.isEmpty_iff, hne]
  unfold build_line_series
  rw [hne']
  simp

/-- The maxValue of a nonempty series: the observed maximum with the Python
`or 1` fallback. -/
lemma build_maxValue_eq (rows : List (String × Nat)) (w h p : Nat)
    (hne : rows ≠ []) :
    (build_line_series rows w h p).maxValue =
      (if (rows.map Prod.snd).foldl max 0 = 0 then 1
       else (rows.map Prod.snd).foldl max 0) := by
  have hne' : rows.isEmpty = false := by simp [List.isEmpty_iff, hne]
  unfold build_line_series
  rw [hne']
  simp

/-- Claim C7 (amended): for every nonempty bucket list and sane chart
dimensions, maxValue is the observed maximum count floored at 1; every x
coordinate is the 2-decimal rounding of the ideal position
padding + spanX * i / (n - 1), and those ideal positions are evenly spaced;
the first bucket (and hence a single bucket) maps to x = padding and, with
two or more buckets, the last maps to x = width - padding; a bucket carrying
the maximum count maps to y = padding whenever that maximum is positive; and
a zero count maps to y = height - padding. -/
theorem claim7_build_series_scaling (rows : List (String × Nat))
    (w h p : Nat) (hne : rows ≠ []) (hw : 2 * p < w) (hh : 2 * p < h) :
    (build_line_series rows w h p).maxValue =
      max ((rows.map Prod.snd).foldl max 0) 1 ∧
    (∀ i : Nat, ((build_line_series rows w h p).dots.map ChartDot.x)[i]? =
      (rows[i]?).map (fun _ => round2 (xIdeal p (w - 2 * p)
        (if rows.length > 1 then rows.length - 1 else 1) i))) ∧
    (∀ i : Nat,
      xIdeal p (w - 2 * p)
          (if rows.length > 1 then rows.length - 1 else 1) (i + 1) -
        xIdeal p (w - 2 * p)
          (if rows.length > 1 then rows.length - 1 else 1) i =
      ((w : ℚ) - 2 * p) /
        ((if rows.length > 1 then rows.length - 1 else 1 : Nat) : ℚ)) ∧
    ((build_line_series rows w h p).dots.map ChartDot.x)[0]? =
      some (p : ℚ) ∧
    (rows.length > 1 →
      ((build_line_series rows w h p).dots.map ChartDot.x).getLast? =
        some ((w : ℚ) - p)) ∧
    (∀ (i : Nat) (b : String × Nat), rows[i]? = some b →
      b.2 = (rows.map Prod.snd).foldl max 0 →
      1 ≤ (rows.map Prod.snd).foldl max 0 →
      ((build_line_series rows w h p).dots.map ChartDot.y)[i]? =
        some (p : ℚ)) ∧
    (∀ (i : Nat) (b : String × Nat), rows[i]? = some b → b.2 = 0 →
      ((build_line_series rows w h p).dots.map ChartDot.y)[i]? =
        some ((h : ℚ) - p)) := by
  have hsx_eq : max (w - p * 2) 1 = w - 2 * p := by omega
  have hsy_eq : max (h - p * 2) 1 = h - 2 * p := by omega
  have hdots := build_dots_eq rows w h p hne
  have hx : ∀ i : Nat,
      ((build_line_series rows w h p).dots.map ChartDot.x)[i]? =
      (rows[i]?).map (fun _ => round2 (xIdeal p (w - 2 * p)
        (if rows.length > 1 then rows.length - 1 else 1) i)) := by
    intro i
    rw [List.getElem?_map, hdots, List.getElem?_map, List.getElem?_enum]
    cases hg : rows[i]? with
    | none => rfl
    | some b => simp [mkDot, hsx_eq]
  have hy : ∀ i : Nat,
      ((build_line_series rows w h p).dots.map ChartDot.y)[i]? =
      (rows[i]?).map (fun b => round2 (yIdeal p (h - 2 * p)
        (if (rows.map Prod.snd).foldl max 0 = 0 then 1
         else (rows.map Prod.snd).foldl max 0) b.2)) := by
    intro i
    rw [List.getElem?_map, hdots, List.getElem?_map, List.getElem?_enum]
    cases hg : rows[i]? with
    | none => rfl
    | some b => simp [mkDot, hsy_eq]
  refine ⟨?_, hx, ?_, ?_, ?_, ?_, ?_⟩
  · rw [build_maxValue_eq rows w h p hne]
    by_cases h0 : (rows.map Prod.snd).foldl max 0 = 0
    · simp [h0]
    · rw [if_neg h0]
      exact (Nat.max_eq_left (by omega)).symm
  · intro i
    unfold xIdeal
    rw [Nat.cast_sub (by omega : 2 * p ≤ w)]
    push_cast
    ring
  · rw [hx 0]
    obtain ⟨b, hb⟩ : ∃ b, rows[0]? = some b := by
      cases rows with
      | nil => exact absurd rfl hne
      | cons a t => exact ⟨a, by simp⟩
    rw [hb]
    have hv : xIdeal p (w - 2 * p)
        (if rows.length > 1 then rows.length - 1 else 1) 0 = ((p : Nat) : ℚ) := by
      simp [xIdeal]
    rw [Option.map_some', hv, round2_natCast]
  · intro hlen
    have hlenx : ((build_line_series rows w h p).dots.map ChartDot.x).length =
        rows.length := by
      rw [hdots]
      simp [List.enum_length]
    rw [List.getLast?_eq_getElem?, hlenx, hx (rows.length - 1)]
    obtain ⟨b, hb⟩ : ∃ b, rows[rows.length - 1]? = some b := by
      have hlt : rows.length - 1 < rows.length := by omega
      exact ⟨_, List.getElem?_eq_getElem hlt⟩
    rw [hb, Option.map_some']
    have hdneq : (if rows.length > 1 then rows.length - 1 else 1) =
        rows.length - 1 := if_pos hlen
    rw [hdneq]
    have hval : xIdeal p (w - 2 * p) (rows.length - 1) (rows.length - 1) =
        ((w - p : Nat) : ℚ) := by
      unfold xIdeal
      have hn0 : ((rows.length - 1 : Nat) : ℚ) ≠ 0 :=
        Nat.cast_ne_zero.mpr (by omega)
      rw [mul_div_assoc, div_self hn0, mul_one,
        Nat.cast_sub (by omega : 2 * p ≤ w),
        Nat.cast_sub (by omega : p ≤ w)]
      push_cast
      ring
    rw [hval, round2_natCast, Nat.cast_sub (by omega : p ≤ w)]
  · intro i b hb hbm hM1
    rw [hy i, hb, Option.map_some']
    have hmc : (if (rows.map Prod.snd).foldl max 0 = 0 then 1
        else (rows.map Prod.snd).foldl max 0) =
        (rows.map Prod.snd).foldl max 0 := if_neg (by omega)
    rw [hmc, hbm]
    have hyv : yIdeal p (h - 2 * p) ((rows.map Prod.snd).foldl max 0)
        ((rows.map Prod.snd).foldl max 0) = ((p : Nat) : ℚ) := by
      unfold yIdeal
      rw [div_self (Nat.cast_ne_zero.mpr (by omega))]
      simp
    rw [hyv, round2_natCast]
  · intro i b hb hb0
    rw [hy i, hb, Option.map_some', hb0]
    have hyv : yIdeal p (h - 2 * p)
        (if (rows.map Prod.snd).foldl max 0 = 0 then 1
         else (rows.map Prod.snd).foldl max 0) 0 = ((h - p : Nat) : ℚ) := by
      unfold yIdeal
      rw [Nat.cast_zero, zero_div, sub_zero, mul_one,
        Nat.cast_sub (by omega : 2 * p ≤ h),
        Nat.cast_sub (by omega : p ≤ h)]
      push_cast
      ring
    rw [hyv, round2_natCast, Nat.cast_sub (by omega : p ≤ h)]

/-- Claim C7 counterexample: on the bucket list [("d1", 0)] all counts are
zero, so the maximum observed count is 0; maxValue is floored to 1 and the
bucket carrying that maximum count maps to y = 40 = height - padding, not to
y = padding = 10 as the claim states for the maximum. -/
theorem claim7_counterexample :
    (([("d1", 0)] : List (String × Nat)).map Prod.snd).foldl max 0 = 0 ∧
    (build_line_series [("d1", 0)] 100 50 10).dots.map ChartDot.y =
      [(40 : ℚ)] ∧ ((40 : ℚ) ≠ 10) := by
  refine ⟨rfl, ?_, by norm_num⟩
  have hdots : (build_line_series [("d1", 0)] 100 50 10).dots =
      [mkDot 10 80 30 1 1 (0, "d1", 0)] := rfl
  rw [hdots]
  simp only [List.map_cons, List.map_nil, mkDot]
  rw [round2_eval (yIdeal 10 30 1 0) 40 (by norm_num [yIdeal])]
  norm_num

/-- Witness for claim C7 at the concrete example of the specification:
counts [1, 4, 2] with width 100, height 50, padding 10 give x-coordinates
10, 50, 90, the maximum count 4 maps to y = 10, and maxValue is 4. -/
theorem claim7_witness :
    ([("d1", 1), ("d2", 4), ("d3", 2)] : List (String × Nat)) ≠ [] ∧
    2 * 10 < 100 ∧ 2 * 10 < 50 ∧
    (build_line_series [("d1", 1), ("d2", 4), ("d3", 2)] 100 50 10).dots.map
      ChartDot.x = [10, 50, 90] ∧
    ((build_line_series [("d1", 1), ("d2", 4), ("d3", 2)] 100 50 10).dots.map
      ChartDot.y)[1]? = some (10 : ℚ) ∧
    (build_line_series [("d1", 1), ("d2", 4), ("d3", 2)] 100 50 10).maxValue =
      max ((([("d1", 1), ("d2", 4), ("d3", 2)] :
        List (String × Nat)).map Prod.snd).foldl max 0) 1 := by
  refine ⟨by decide, by decide, by decide, ?_, ?_, ?_⟩
  · have hdots :
        (build_line_series [("d1", 1), ("d2", 4), ("d3", 2)] 100 50 10).dots =
        [mkDot 10 80 30 4 2 (0, "d1", 1), mkDot 10 80 30 4 2 (1, "d2", 4),
         mkDot 10 80 30 4 2 (2, "d3", 2)] := rfl
    rw [hdots]
    simp only [List.map_cons, List.map_nil, mkDot]
    rw [round2_eval (xIdeal 10 80 2 0) 10 (by norm_num [xIdeal]),
        round2_eval (xIdeal 10 80 2 1) 50 (by norm_num [xIdeal]),
        round2_eval (xIdeal 10 80 2 2) 90 (by norm_num [xIdeal])]
    norm_num
  · have := (claim7_build_series_scaling [("d1", 1), ("d2", 4), ("d3", 2)]
      100 50 10 (by decide) (by decide) (by decide)).2.2.2.2.2.1 1 ("d2", 4)
      (by decide) (by decide) (by decide)
    simpa using this
  · exact (claim7_build_series_scaling [("d1", 1), ("d2", 4), ("d3", 2)]
      100 50 10 (by decide) (by decide) (by decide)).1
